import Mathlib

/-!
Verification of the render-job orchestration pipeline of the
code-to-video backend (Fastify + Remotion renderer).

The development shallowly embeds the JavaScript sources:
  * `lib/config-extractor.js` — composition-config extraction
    (capture regex, comment/trailing-comma cleaning, direct structural
    evaluation via `eval`, per-field regex fallback) and export-style
    detection;
  * `lib/temp-project.js` — temporary-project synthesis and cleanup;
  * `api-server.js` — the `/render` orchestrator (validation, stage
    sequencing, catch/finally cleanup discipline), the periodic stale-file
    sweep, and output-path / content-disposition computation.

JavaScript dynamic values are modelled by `JSVal` (numbers as exact
scaled decimals; the model carries no NaN value, an `Option` is used
where `parseFloat` /
`parseInt` may produce NaN).  Filesystem effects of one render job are
modelled by a small state record; stage failures are injected through an
explicit outcome record, mirroring the try/catch/finally structure of the
handler.  `eval` of the cleaned literal is modelled by an executable
recursive-descent evaluator of the JavaScript expression fragment that
the conventional composition literals occupy (object/array/string/number
/boolean/null literals, unquoted or quoted keys, and binary `+ - *` on
numbers, parenthesised subexpressions); a syntactically invalid literal
makes the evaluator return `none`, matching the `catch (evalError)`
fallback path of the source.
-/

namespace CodeToVideo

/-- Characters that are awkward under the source scanner are built
numerically: `{` `}` `[` `]` `(` `)` `'` `"` `\`. -/
def lbraceC : Char := Char.ofNat 123

/-- Closing brace character. -/
def rbraceC : Char := Char.ofNat 125

/-- Opening bracket character. -/
def lbrackC : Char := Char.ofNat 91

/-- Closing bracket character. -/
def rbrackC : Char := Char.ofNat 93

/-- Opening parenthesis character. -/
def lparenC : Char := Char.ofNat 40

/-- Closing parenthesis character. -/
def rparenC : Char := Char.ofNat 41

/-- Single-quote character. -/
def squoteC : Char := Char.ofNat 39

/-- Double-quote character. -/
def dquoteC : Char := Char.ofNat 34

/-- Backslash character. -/
def backslashC : Char := Char.ofNat 92

/-- The character list of a string literal. -/
def litChars (s : String) : List Char := s.data

/-- Exact scaled-decimal numbers: the value is `mant / 10 ^ scale`.
Decimal numerals and their sums, differences and products — everything
the composition literals and the extractor's arithmetic produce — are
exact in this form, and its arithmetic is plain `Int`/`Nat` arithmetic,
so concrete runs of the model evaluate definitionally. -/
structure JSNum where
  mant : Int
  scale : Nat
deriving DecidableEq

/-- The rational value of a scaled decimal. -/
def JSNum.toQ (n : JSNum) : ℚ := (n.mant : ℚ) / (10 : ℚ) ^ n.scale

/-- Product of scaled decimals (exact). -/
def JSNum.mul (a b : JSNum) : JSNum := ⟨a.mant * b.mant, a.scale + b.scale⟩

/-- Sum of scaled decimals (exact, by aligning scales). -/
def JSNum.add (a b : JSNum) : JSNum :=
  let s := max a.scale b.scale
  ⟨a.mant * (10 : Int) ^ (s - a.scale) + b.mant * (10 : Int) ^ (s - b.scale), s⟩

/-- Difference of scaled decimals (exact, by aligning scales). -/
def JSNum.sub (a b : JSNum) : JSNum :=
  let s := max a.scale b.scale
  ⟨a.mant * (10 : Int) ^ (s - a.scale) - b.mant * (10 : Int) ^ (s - b.scale), s⟩

/-- Model of JavaScript dynamic values as produced by evaluating a
composition-config literal.  Numbers are exact scaled decimals (the
literals the extractor reads are decimal numerals). -/
inductive JSVal where
  | num (n : JSNum)
  | str (s : String)
  | boolV (b : Bool)
  | nullV
  | undefV
  | obj (fields : List (String × JSVal))
  | arr (elems : List JSVal)

/-- JavaScript truthiness: `0`, `""`, `false`, `null`, `undefined` are
falsy; every object/array is truthy.  A scaled decimal is zero exactly
when its mantissa is zero.  (The model has no NaN `JSVal`.) -/
def truthy : JSVal → Bool
  | .num n => decide (n.mant ≠ 0)
  | .str s => decide (s ≠ "")
  | .boolV b => b
  | .nullV => false
  | .undefV => false
  | .obj _ => true
  | .arr _ => true

/-- Property access `v[k]` on an evaluated literal: on an object the
last binding of the key wins (JavaScript object-literal semantics for
duplicate keys); on any non-object it yields `undefined`. -/
def objGet : JSVal → String → JSVal
  | .obj fields, k =>
      match (fields.filter (fun p => p.1 == k)).getLast? with
      | some p => p.2
      | none => .undefV
  | _, _ => .undefV

/-- JavaScript `a || b`. -/
def jsOr (v d : JSVal) : JSVal := if truthy v then v else d

/-- Whether a value is `null` or `undefined`. -/
def isNullOrUndef : JSVal → Bool
  | .nullV => true
  | .undefV => true
  | _ => false

/-- The extractor result record: the six fields returned by
`extractCompositionConfig` (config-extractor.js lines 49–56 and 66).
Field values are JavaScript values: the source performs no type
checking, so e.g. a truthy string stored under `fps` is passed through. -/
structure ExtractedConfig where
  id : JSVal
  durationInSeconds : JSVal
  fps : JSVal
  width : JSVal
  height : JSVal
  defaultProps : JSVal

/-- Defaults table of config-extractor.js lines 10–15 (`id` defaults to
the source file base name separately, line 50). -/
def defaultDurationInSeconds : JSNum := ⟨5, 0⟩

/-- Default frame rate. -/
def defaultFps : JSNum := ⟨30, 0⟩

/-- Default width. -/
def defaultWidth : JSNum := ⟨1080, 0⟩

/-- Default height. -/
def defaultHeight : JSNum := ⟨1920, 0⟩

/-- Validate-and-backfill step of the successful-evaluation path
(config-extractor.js lines 49–56): every field goes through JavaScript
`||` against its default, so any falsy present value (0, `""`, `null`,
`false`, `undefined`) is replaced by the default. -/
def backfill (filename : String) (config : JSVal) : ExtractedConfig :=
  { id := jsOr (objGet config "id") (.str filename)
  , durationInSeconds := jsOr (objGet config "durationInSeconds") (.num defaultDurationInSeconds)
  , fps := jsOr (objGet config "fps") (.num defaultFps)
  , width := jsOr (objGet config "width") (.num defaultWidth)
  , height := jsOr (objGet config "height") (.num defaultHeight)
  , defaultProps := jsOr (objGet config "defaultProps") (.obj []) }

/-- JavaScript `\s` white-space class (the members that occur in source
text): space, tab, newline, carriage return, vertical tab, form feed. -/
def isWsJS (c : Char) : Bool :=
  c = ' ' || c = '\t' || c = '\n' || c = '\r' || c = Char.ofNat 11 || c = Char.ofNat 12

/-- Drop leading white space. -/
def dropWsL (cs : List Char) : List Char := cs.dropWhile isWsJS

/-- Match a literal character sequence at the head of the input,
returning the rest on success. -/
def stripLitL : List Char → List Char → Option (List Char)
  | [], cs => some cs
  | _ :: _, [] => none
  | p :: ps, c :: cs => if c = p then stripLitL ps cs else none

/-- Match `\s+` (at least one white-space character). -/
def wsPlus (cs : List Char) : Option (List Char) :=
  match cs with
  | c :: rest => if isWsJS c then some (rest.dropWhile isWsJS) else none
  | [] => none

/-- Numeric value of a list of decimal digits. -/
def digitsToNat (ds : List Char) : Nat :=
  ds.foldl (fun a c => 10 * a + (c.toNat - 48)) 0

/-- Scaled-decimal value of an integer digit part and a fraction digit
part: `intPart.fracPart` is `digits(intPart ++ fracPart) / 10 ^ |fracPart|`. -/
def decimalVal (intPart fracPart : List Char) : JSNum :=
  ⟨(digitsToNat (intPart ++ fracPart) : Int), fracPart.length⟩

/-- Model of JavaScript `parseFloat` on the strings the fallback feeds
it: leading white space, an optional sign, then a leading decimal
numeral (`123`, `12.5`, `.5`); `none` models NaN (no parsable leading
numeral).  Exponent suffixes are not modelled; no capture of the
fallback regexes contains one. -/
def jsParseFloat (s : String) : Option JSNum :=
  let cs := dropWsL s.data
  let (neg, cs) :=
    match cs with
    | c :: rest => if c = '-' then (true, rest) else if c = '+' then (false, rest) else (false, cs)
    | [] => (false, cs)
  let intPart := cs.takeWhile Char.isDigit
  let rest := cs.drop intPart.length
  let (fracPart, _) :=
    match rest with
    | c :: r2 => if c = '.' then (r2.takeWhile Char.isDigit, r2) else ([], rest)
    | [] => ([], rest)
  if intPart.isEmpty && fracPart.isEmpty then none
  else
    let v := decimalVal intPart fracPart
    some (if neg then ⟨-v.mant, v.scale⟩ else v)

/-- Model of JavaScript `parseInt` (radix auto-detection is not
modelled; no capture of the fallback regexes starts with `0x`): leading
white space, optional sign, then leading decimal digits only. -/
def jsParseInt (s : String) : Option JSNum :=
  let cs := dropWsL s.data
  let (neg, cs) :=
    match cs with
    | c :: rest => if c = '-' then (true, rest) else if c = '+' then (false, rest) else (false, cs)
    | [] => (false, cs)
  let ds := cs.takeWhile Char.isDigit
  if ds.isEmpty then none
  else
    let v : Int := (digitsToNat ds : Int)
    some ⟨if neg then -v else v, 0⟩

/-- Match, at the current position, the tail of the fallback quoted
pattern `key\s*:\s*['"]([^'"]+)['"]` (config-extractor.js line 76)
after the key: white space, colon, white space, a quote, one or more
non-quote characters (the capture), then a quote (either kind, exactly
as the character classes of the regex demand). -/
def quotedTailAt (cs : List Char) : Option (List Char) :=
  let r1 := dropWsL cs
  match r1 with
  | c :: r2 =>
    if c = ':' then
      let r3 := dropWsL r2
      match r3 with
      | q :: r4 =>
        if q = squoteC || q = dquoteC then
          let body := r4.takeWhile (fun c => !(c = squoteC || c = dquoteC))
          if body.isEmpty then none
          else
            match r4.drop body.length with
            | q2 :: _ => if q2 = squoteC || q2 = dquoteC then some body else none
            | [] => none
        else none
      | [] => none
    else none
  | [] => none

/-- Match, at the current position, the tail of the fallback numeric
pattern `key\s*:\s*(\d+\.?\d*)` (config-extractor.js line 77) after the
key; the capture includes the optional dot and fraction digits. -/
def numericTailAt (cs : List Char) : Option (List Char) :=
  let r1 := dropWsL cs
  match r1 with
  | c :: r2 =>
    if c = ':' then
      let r3 := dropWsL r2
      let ds := r3.takeWhile Char.isDigit
      if ds.isEmpty then none
      else
        match r3.drop ds.length with
        | c2 :: r4 =>
          if c2 = '.' then some (ds ++ [c2] ++ r4.takeWhile Char.isDigit)
          else some ds
        | [] => some ds
    else none
  | [] => none

/-- First (leftmost) match of the quoted pattern for `key` anywhere in
the literal text, returning the capture. -/
def firstQuotedCapture (key : List Char) : List Char → Option (List Char)
  | [] => (stripLitL key []).bind quotedTailAt
  | cs@(_ :: rest) =>
    match (stripLitL key cs).bind quotedTailAt with
    | some b => some b
    | none => firstQuotedCapture key rest

/-- First (leftmost) match of the numeric pattern for `key` anywhere in
the literal text, returning the capture. -/
def firstNumericCapture (key : List Char) : List Char → Option (List Char)
  | [] => (stripLitL key []).bind numericTailAt
  | cs@(_ :: rest) =>
    match (stripLitL key cs).bind numericTailAt with
    | some b => some b
    | none => firstNumericCapture key rest

/-- Model of `extractValue` (config-extractor.js lines 73–86): try the quoted
pattern over the whole string first, then the numeric pattern, and
return the first capture found. -/
def extractValue (configStr key : List Char) : Option String :=
  match firstQuotedCapture key configStr with
  | some b => some (String.mk b)
  | none => (firstNumericCapture key configStr).map String.mk

/-- JavaScript `n || d` after a possibly-NaN numeric parse: NaN (`none`)
and `0` both fall to the default. -/
def orNumDefault (o : Option JSNum) (d : JSNum) : JSNum :=
  match o with
  | some q => if q.mant = 0 then d else q
  | none => d

/-- The regex-fallback path of the extractor (config-extractor.js lines
57–67), applied to the raw captured literal: `id` is the raw capture (a
string) or the file base name; the numeric fields go through
`parseFloat` / `parseInt` and `||` against their defaults; `defaultProps`
is always the empty object on this path. -/
def regexFallback (lit : List Char) (filename : String) : ExtractedConfig :=
  { id := .str ((extractValue lit (litChars "id")).getD filename)
  , durationInSeconds := .num (orNumDefault ((extractValue lit (litChars "durationInSeconds")).bind jsParseFloat) defaultDurationInSeconds)
  , fps := .num (orNumDefault ((extractValue lit (litChars "fps")).bind jsParseInt) defaultFps)
  , width := .num (orNumDefault ((extractValue lit (litChars "width")).bind jsParseInt) defaultWidth)
  , height := .num (orNumDefault ((extractValue lit (litChars "height")).bind jsParseInt) defaultHeight)
  , defaultProps := .obj [] }

/-- Identifier-continuation characters of JavaScript (ASCII fragment). -/
def isIdentChar (c : Char) : Bool := c.isAlphanum || c = '_' || c = '$'

/-- Match a keyword with a word boundary after it. -/
def keywordAt (kw : List Char) (cs : List Char) : Option (List Char) :=
  match stripLitL kw cs with
  | some rest =>
    match rest with
    | c :: _ => if isIdentChar c then none else some rest
    | [] => some rest
  | none => none

/-- Parser modes of the expression-fragment evaluator: one fuelled
function covers the mutually recursive grammar productions. -/
inductive PMode where
  | expr
  | addTail (acc : JSVal)
  | term
  | mulTail (acc : JSVal)
  | atom
  | objEntries (acc : List (String × JSVal))
  | arrEntries (acc : List JSVal)

/-- Recursive-descent evaluator of the JavaScript expression fragment
occupied by composition-config literals.  With `ops := true` it models
`eval("(" + configStr + ")")` (config-extractor.js line 46) on that
fragment: literals plus binary `+ - *` on numbers and parenthesised
subexpressions are computed.  With `ops := false` only pure structured
literals (objects, arrays, strings, numbers, booleans, `null`, with
unquoted or quoted keys and trailing commas) are accepted — the safe
structured-literal parser that the specification prescribes.  Returns
the value and the unconsumed rest, or `none` on a syntax error. -/
def parseP (ops : Bool) : Nat → PMode → List Char → Option (JSVal × List Char)
  | 0, _, _ => none
  | Nat.succ f, .expr, cs =>
    match parseP ops f .term cs with
    | some (v, r) => if ops then parseP ops f (.addTail v) r else some (v, r)
    | none => none
  | Nat.succ f, .addTail acc, cs =>
    (match dropWsL cs with
     | c :: rest =>
       if c = '+' || c = '-' then
         match parseP ops f .term rest with
         | some (v2, r2) =>
           match acc, v2 with
           | .num a, .num b =>
             parseP ops f (.addTail (.num (if c = '+' then a.add b else a.sub b))) r2
           | _, _ => none
         | none => none
       else some (acc, cs)
     | [] => some (acc, cs))
  | Nat.succ f, .term, cs =>
    match parseP ops f .atom cs with
    | some (v, r) => if ops then parseP ops f (.mulTail v) r else some (v, r)
    | none => none
  | Nat.succ f, .mulTail acc, cs =>
    (match dropWsL cs with
     | c :: rest =>
       if c = '*' then
         match parseP ops f .atom rest with
         | some (v2, r2) =>
           match acc, v2 with
           | .num a, .num b => parseP ops f (.mulTail (.num (a.mul b))) r2
           | _, _ => none
         | none => none
       else some (acc, cs)
     | [] => some (acc, cs))
  | Nat.succ f, .atom, cs =>
    (match dropWsL cs with
     | [] => none
     | c :: rest =>
       if c = lbraceC then parseP ops f (.objEntries []) rest
       else if c = lbrackC then parseP ops f (.arrEntries []) rest
       else if c = squoteC || c = dquoteC then
         let body := rest.takeWhile (fun c2 => c2 ≠ c)
         match rest.drop body.length with
         | q :: r2 => if q = c then some (.str (String.mk body), r2) else none
         | [] => none
       else if c.isDigit then
         let all := c :: rest
         let ds := all.takeWhile Char.isDigit
         let r2 := all.drop ds.length
         match r2 with
         | d :: r3 =>
           if d = '.' then
             let fs := r3.takeWhile Char.isDigit
             some (.num (decimalVal ds fs), r3.drop fs.length)
           else some (.num (decimalVal ds []), r2)
         | [] => some (.num (decimalVal ds []), r2)
       else if c = lparenC && ops then
         match parseP ops f .expr rest with
         | some (v, r2) =>
           (match dropWsL r2 with
            | c2 :: r3 => if c2 = rparenC then some (v, r3) else none
            | [] => none)
         | none => none
       else
         match keywordAt (litChars "true") (c :: rest) with
         | some r2 => some (.boolV true, r2)
         | none =>
           match keywordAt (litChars "false") (c :: rest) with
           | some r2 => some (.boolV false, r2)
           | none =>
             match keywordAt (litChars "null") (c :: rest) with
             | some r2 => some (.nullV, r2)
             | none => none)
  | Nat.succ f, .objEntries acc, cs =>
    (match dropWsL cs with
     | [] => none
     | c :: rest =>
       if c = rbraceC then some (.obj acc, rest)
       else
         let keyRest : Option (String × List Char) :=
           if c = squoteC || c = dquoteC then
             let body := rest.takeWhile (fun c2 => c2 ≠ c)
             match rest.drop body.length with
             | q :: r2 => if q = c then some (String.mk body, r2) else none
             | [] => none
           else if c.isAlpha || c = '_' || c = '$' then
             let tail := rest.takeWhile isIdentChar
             some (String.mk (c :: tail), rest.drop tail.length)
           else none
         match keyRest with
         | none => none
         | some (key, r2) =>
           match dropWsL r2 with
           | c2 :: r3 =>
             if c2 = ':' then
               match parseP ops f .expr r3 with
               | some (v, r4) =>
                 (match dropWsL r4 with
                  | c3 :: r5 =>
                    if c3 = ',' then parseP ops f (.objEntries (acc ++ [(key, v)])) r5
                    else if c3 = rbraceC then some (.obj (acc ++ [(key, v)]), r5)
                    else none
                  | [] => none)
               | none => none
             else none
           | [] => none)
  | Nat.succ f, .arrEntries acc, cs =>
    (match dropWsL cs with
     | [] => none
     | c :: rest =>
       if c = rbrackC then some (.arr acc, rest)
       else
         match parseP ops f .expr (c :: rest) with
         | some (v, r2) =>
           (match dropWsL r2 with
            | c2 :: r3 =>
              if c2 = ',' then parseP ops f (.arrEntries (acc ++ [v])) r3
              else if c2 = rbrackC then some (.arr (acc ++ [v]), r3)
              else none
            | [] => none)
         | none => none)

/-- Fuel that is ample for any input of the given length (every
recursive call either consumes input or moves one production down a
chain of bounded length). -/
def evalFuel (cs : List Char) : Nat := 16 * cs.length + 64

/-- Model of the direct structural evaluation
`eval("(" + configStr + ")")` of the cleaned captured literal
(config-extractor.js line 46) on the expression fragment: `none` models
the thrown `evalError` of the source. -/
def evalLiteral (cs : List Char) : Option JSVal :=
  match parseP true (evalFuel cs) .expr cs with
  | some (v, rest) => if (dropWsL rest).isEmpty then some v else none
  | none => none

/-- Modelled from the spec: the safe structured-literal parser of §9
("use a safe structured-literal parser (e.g., a JSON-literal-tolerant
parser extended for unquoted keys) instead" of any mechanism that
executes input as code).  It accepts exactly the pure literals and
never computes an expression. -/
def safeStructuralLiteral (cs : List Char) : Option JSVal :=
  match parseP false (evalFuel cs) .expr cs with
  | some (v, rest) => if (dropWsL rest).isEmpty then some v else none
  | none => none

/-- Strip single-line comments, the `replace(/\/\/.*$/gm, "")` pass of
config-extractor.js line 41: from each `//` to the end of its line (the
newline itself survives, since `.` does not match it). -/
def stripLineComments : Bool → List Char → List Char
  | _, [] => []
  | true, c :: rest =>
    if c = '\n' then c :: stripLineComments false rest
    else stripLineComments true rest
  | false, [c] => [c]
  | false, c :: c2 :: r2 =>
    if c = '/' && c2 = '/' then stripLineComments true r2
    else c :: stripLineComments false (c2 :: r2)

/-- Whether `*/` occurs in the text (look-ahead used to mirror the lazy
block-comment regex, which matches only terminated comments). -/
def hasBlockClose : List Char → Bool
  | [] => false
  | c :: rest =>
    if c = '*' && rest.head? = some '/' then true
    else hasBlockClose rest

/-- Strip block comments, the `replace(/\/\*[\s\S]*?\*\//g, "")` pass of
config-extractor.js line 42: each `/*` up to the nearest `*/`; an
unterminated `/*` is left in place (the regex matches only closed
comments). -/
def stripBlockComments : Bool → List Char → List Char
  | _, [] => []
  | true, [_] => []
  | true, c :: c2 :: r2 =>
    if c = '*' && c2 = '/' then stripBlockComments false r2
    else stripBlockComments true (c2 :: r2)
  | false, [c] => [c]
  | false, c :: c2 :: r2 =>
    if c = '/' && c2 = '*' && hasBlockClose r2 then stripBlockComments true r2
    else c :: stripBlockComments false (c2 :: r2)

/-- Strip trailing commas, the `replace(/,(\s*[}\]])/g, "$1")` pass of
config-extractor.js line 43: a comma whose next non-white-space
character is `}` or `]` is dropped (the white space and bracket are
kept); scanning resumes after the bracket.  The `pending` argument
holds a comma plus following white space not yet decided. -/
def stripTrailingCommas (pending : List Char) : List Char → List Char
  | [] => pending
  | c :: rest =>
    match pending with
    | [] =>
      if c = ',' then stripTrailingCommas [c] rest
      else c :: stripTrailingCommas [] rest
    | p =>
      if isWsJS c then stripTrailingCommas (p ++ [c]) rest
      else if c = rbraceC || c = rbrackC then
        (p.drop 1) ++ c :: stripTrailingCommas [] rest
      else if c = ',' then p ++ stripTrailingCommas [c] rest
      else p ++ c :: stripTrailingCommas [] rest

/-- The cleaning pipeline applied to the captured literal before the
direct structural evaluation (config-extractor.js lines 40–43). -/
def cleanLiteral (lit : List Char) : List Char :=
  stripTrailingCommas [] (stripBlockComments false (stripLineComments false lit))

/-- Match, at the current position, the prefix of the capture regex
`export\s+const\s+compositionConfig\s*=\s*\{` (config-extractor.js
lines 27–29), returning the rest immediately after the opening brace. -/
def configHeadAt (cs : List Char) : Option (List Char) := do
  let r1 ← stripLitL (litChars "export") cs
  let r2 ← wsPlus r1
  let r3 ← stripLitL (litChars "const") r2
  let r4 ← wsPlus r3
  let r5 ← stripLitL (litChars "compositionConfig") r4
  let r6 := dropWsL r5
  match r6 with
  | c :: r7 =>
    if c = '=' then
      match dropWsL r7 with
      | c2 :: r8 => if c2 = lbraceC then some r8 else none
      | [] => none
    else none
  | [] => none

/-- The lazy body `[\s\S]*?\});` after the opening brace: everything up
to and including the first `}` that is immediately followed by `;`;
`none` when no such `};` exists. -/
def captureBody : List Char → Option (List Char)
  | [] => none
  | c :: rest =>
    if c = rbraceC && rest.head? = some ';' then some [c]
    else
      match captureBody rest with
      | some tail => some (c :: tail)
      | none => none

/-- Leftmost match of the capture regex over the whole source text,
returning capture group 1 (the braced literal). -/
def findCapture : List Char → Option (List Char)
  | [] => none
  | cs@(_ :: rest) =>
    match configHeadAt cs with
    | some afterBrace =>
      match captureBody afterBrace with
      | some body => some (lbraceC :: body)
      | none => findCapture rest
    | none => findCapture rest

/-- Model of `extractCompositionConfig` (config-extractor.js lines 22–68) on the
file content and base name: no capture is the only hard failure; a
successful evaluation goes through `backfill`; an evaluation error
falls back to the per-field regex extraction over the raw capture. -/
def extractCompositionConfig (content filename : String) : Except String ExtractedConfig :=
  match findCapture content.data with
  | none =>
    .error ("No compositionConfig found in " ++ filename ++ ".tsx\nYour file must export a compositionConfig object.")
  | some lit =>
    match evalLiteral (cleanLiteral lit) with
    | some v => .ok (backfill filename v)
    | none => .ok (regexFallback lit filename)

/-- Modelled from the spec (§9, §4.1): the extractor as the
specification prescribes it, identical to `extractCompositionConfig`
except that the direct structural evaluation uses the safe
structured-literal parser instead of `eval`.  Used to compare the
code's behaviour against the specified one. -/
def extractCompositionConfigSafe (content filename : String) : Except String ExtractedConfig :=
  match findCapture content.data with
  | none =>
    .error ("No compositionConfig found in " ++ filename ++ ".tsx\nYour file must export a compositionConfig object.")
  | some lit =>
    match safeStructuralLiteral (cleanLiteral lit) with
    | some v => .ok (backfill filename v)
    | none => .ok (regexFallback lit filename)

/-- Export style record returned by `detectExportStyle`
(config-extractor.js lines 93–116): `{type: "default", name: null}` or
`{type: "named", name}`. -/
inductive ExportStyle where
  | defaultExport
  | namedExport (name : String)

/-- Whether `/export\s+default/` matches anywhere in the text
(config-extractor.js line 98). -/
def hasDefaultExport : List Char → Bool
  | [] => false
  | cs@(_ :: rest) =>
    match (stripLitL (litChars "export") cs).bind wsPlus with
    | some r2 =>
      match stripLitL (litChars "default") r2 with
      | some _ => true
      | none => hasDefaultExport rest
    | none => hasDefaultExport rest

/-- Match, at the current position, one occurrence of
`export\s+(?:const|function)\s+([A-Z][a-zA-Z0-9]*)` (config-extractor.js
line 104), returning the captured identifier and the rest after the
match. -/
def namedExportAt (cs : List Char) : Option (String × List Char) := do
  let r1 ← stripLitL (litChars "export") cs
  let r2 ← wsPlus r1
  let r3 ←
    match (stripLitL (litChars "const") r2).bind wsPlus with
    | some r => some r
    | none => (stripLitL (litChars "function") r2).bind wsPlus
  match r3 with
  | c :: tail =>
    if c.isUpper then
      let nameTail := tail.takeWhile Char.isAlphanum
      some (String.mk (c :: nameTail), tail.drop nameTail.length)
    else none
  | [] => none

/-- All matches of the named-export pattern in source order, with
`matchAll` semantics (scanning resumes after each match).  The fuel is
the input length, which bounds the number of scanning steps since every
step strictly shortens the input. -/
def allNamedExports : Nat → List Char → List String
  | 0, _ => []
  | _, [] => []
  | Nat.succ f, cs@(_ :: rest) =>
    match namedExportAt cs with
    | some (n, after) => n :: allNamedExports f after
    | none => allNamedExports f rest

/-- The loop of config-extractor.js lines 107–112: the first matched
name different from the reserved `compositionConfig` (the capture
starts with an upper-case letter, so the guard can in fact never
reject). -/
def firstComponentName : List String → Option String
  | [] => none
  | n :: rest => if n != "compositionConfig" then some n else firstComponentName rest

/-- Model of `detectExportStyle` (config-extractor.js lines 93–116) on the file
content and base name. -/
def detectExportStyle (content filename : String) : ExportStyle :=
  if hasDefaultExport content.data then .defaultExport
  else
    match firstComponentName (allNamedExports (content.data.length + 1) content.data) with
    | some n => .namedExport n
    | none => .namedExport filename

/-- Decimal representation of a natural number, the model of the
template interpolation `${Date.now()}` (temp-project.js line 18). -/
def decRepr (n : Nat) : String :=
  if n = 0 then "0"
  else String.mk (((Nat.digits 10 n).reverse).map Nat.digitChar)

/-- Model of the OS temporary root `os.tmpdir()`. -/
def osTmpDir : String := "/tmp"

/-- Model of `path.join` on the arguments the server passes it (plain
names joined under a directory; no `..` normalisation is exercised by
the code's own arguments). -/
def pathJoin (a b : String) : String := a ++ "/" ++ b

/-- The temporary project root directory name
`path.join(os.tmpdir(), "remotion-render-" + Date.now())`
(temp-project.js line 18): it depends on nothing but the millisecond
timestamp — in particular not on the job. -/
def tempProjectDirName (now : Nat) : String :=
  pathJoin osTmpDir ("remotion-render-" ++ decRepr now)

/-- JavaScript `Math.round` on the exact rationals of the model:
half-up rounding, `⌊x + 1/2⌋`. -/
def jsMathRound (x : ℚ) : ℤ := ⌊x + 1 / 2⌋

/-- A composition config with numeric duration/fps/width/height, the
shape `createTempProject` receives for every claim about the
synthesizer (its arithmetic is JavaScript number arithmetic, exact on
these decimal inputs). -/
structure NumericConfig where
  id : String
  durationInSeconds : ℚ
  fps : ℚ
  width : ℚ
  height : ℚ
  defaultProps : JSVal

/-- A flat one-level JSON serialisation used to model
`JSON.stringify(config.defaultProps || {})` (temp-project.js line 65);
nested objects are rendered opaquely — no claim depends on the nested
text. -/
def jsonLite : JSVal → String
  | .num q => toString q.mant ++ (if q.scale = 0 then "" else "e-" ++ toString q.scale)
  | .str s => "\x22" ++ s ++ "\x22"
  | .boolV b => if b then "true" else "false"
  | .nullV => "null"
  | .undefV => "null"
  | .obj fs => "\x7b" ++ String.intercalate "," (fs.map (fun p => "\x22" ++ p.1 ++ "\x22:...")) ++ "\x7d"
  | .arr vs => "[" ++ String.intercalate "," (vs.map (fun _ => "...")) ++ "]"

/-- The base name of a path with the `.tsx` suffix removed, the model
of `path.basename(filePath, ".tsx")`. -/
def baseNameNoTsx (p : String) : String :=
  let base := ((p.split (fun c => c = '/')).getLast?).getD p
  if base.endsWith ".tsx" then String.mk (base.data.take (base.data.length - 4)) else base

/-- The import statement synthesized for the user's component
(temp-project.js lines 28–38): path separators normalised to `/`, a
default export imported directly, a named export aliased to
`UserComponent`. -/
def importStatementFor (tsxFilePath : String) (style : ExportStyle) : String :=
  let url := String.mk (tsxFilePath.data.map (fun c => if c = backslashC then '/' else c))
  match style with
  | .defaultExport => "import UserComponent from \x27" ++ url ++ "\x27;"
  | .namedExport n => "import \x7b " ++ n ++ " as UserComponent \x7d from \x27" ++ url ++ "\x27;"

/-- The synthesized `Root.tsx` text (temp-project.js lines 52–69) as a
function of the config, the import statement and the number written
into `durationInFrames=...`. -/
def rootTsxTemplate (c : NumericConfig) (importStatement : String) (n : ℤ) : String :=
  "import React from \x27react\x27;\nimport \x7b Composition \x7d from \x27remotion\x27;\n" ++ importStatement ++
  "\n\nexport const Root: React.FC = () => \x7b\n  return (\n    <Composition\n      id=\x22" ++ c.id ++
  "\x22\n      component=\x7bUserComponent\x7d\n      durationInFrames=\x7b" ++ toString n ++
  "\x7d\n      fps=\x7b" ++ toString c.fps ++ "\x7d\n      width=\x7b" ++ toString c.width ++
  "\x7d\n      height=\x7b" ++ toString c.height ++ "\x7d\n      defaultProps=\x7b" ++
  jsonLite (jsOr c.defaultProps (.obj [])) ++ "\x7d\n    />\n  );\n\x7d;\n"

/-- The synthesized entry point `index.ts` (temp-project.js lines
44–48). -/
def indexTsText : String :=
  "import \x7b registerRoot \x7d from \x27remotion\x27;\nimport \x7b Root \x7d from \x27./Root\x27;\n\nregisterRoot(Root);\n"

/-- The files and values `createTempProject` (temp-project.js lines
16–99) produces for one job. -/
structure TempProjectFiles where
  tempDir : String
  indexTs : String
  rootTsx : String
  durationInFrames : ℤ

/-- Model of `createTempProject` as a value-level synthesis: directory name from
the clock, export style detected from the user's file content, duration
in frames `Math.round(config.durationInSeconds * config.fps)`
(temp-project.js line 41), and the generated sources. -/
def createTempProjectFiles (now : Nat) (tsxFilePath tsxContent : String) (c : NumericConfig) : TempProjectFiles :=
  let style := detectExportStyle tsxContent (baseNameNoTsx tsxFilePath)
  let n := jsMathRound (c.durationInSeconds * c.fps)
  { tempDir := tempProjectDirName now
  , indexTs := indexTsText
  , rootTsx := rootTsxTemplate c (importStatementFor tsxFilePath style) n
  , durationInFrames := n }

/-- The `durationInFrames` the orchestrator passes to `renderMedia`
(api-server.js line 166), computed with the same formula. -/
def renderMediaDurationInFrames (c : NumericConfig) : ℤ :=
  jsMathRound (c.durationInSeconds * c.fps)

/-! ### The render orchestrator (api-server.js lines 80–215)

One job's effect on its three job-scoped filesystem resources is
simulated against an outcome record that says which stage succeeds.
Deletions of the cleanup paths themselves are modelled as succeeding
(the source logs and swallows their errors). -/

/-- How far `createTempProject` gets: it can fail before creating the
root directory (the first `mkdirSync`, temp-project.js line 19) or
after it (any later read/write of lines 22–96), in which case the
directory exists but the caller's `tempProjectDir` variable was never
assigned. -/
inductive SynthOutcome where
  | success
  | failBeforeCreate
  | failAfterCreate
deriving DecidableEq

/-- Injected stage outcomes for one `/render` job. -/
structure StageOutcomes where
  tsxValid : Bool
  extractOk : Bool
  browserOk : Bool
  synth : SynthOutcome
  bundleOk : Bool
  selectOk : Bool
  renderOk : Bool
deriving DecidableEq

/-- Whether the job-scoped files exist on disk at a point in time:
`temp/<jobId>.tsx`, the output file, and the temporary project root
directory. -/
structure JobFiles where
  tsxFile : Bool
  outputFile : Bool
  tempProject : Bool
deriving DecidableEq

/-- The response a job terminates with: delivered video, a 400
validation/config error, or a 500 pipeline error. -/
inductive JobResponse where
  | delivered
  | clientError
  | serverError
deriving DecidableEq

/-- The catch block of api-server.js lines 193–208: best-effort
deletion of the job's temp source file and output file. -/
def catchCleanup (s : JobFiles) : JobFiles :=
  { s with tsxFile := false, outputFile := false }

/-- The finally block of api-server.js lines 209–214: the temp project
directory is removed only when the `tempProjectDir` variable is
non-null, i.e. only when `createTempProject` returned. -/
def finallyCleanup (tempProjectDirSet : Bool) (s : JobFiles) : JobFiles :=
  if tempProjectDirSet then { s with tempProject := false } else s

/-- Simulation of one `/render` job (api-server.js lines 80–215)
against the injected stage outcomes, producing the final on-disk state
of the job-scoped resources and the response kind.

Control flow mirrored from the source: input validation rejects before
any write; the TSX file is written; a config-extraction error is caught
by the inner catch (lines 116–123) and returns 400 directly — the
outer catch does not run for it; every later failure lands in the
outer catch (lines 193–208); the finally block (lines 209–214) runs on
every path. -/
def runRenderJob (o : StageOutcomes) : JobFiles × JobResponse :=
  if !o.tsxValid then (⟨false, false, false⟩, .clientError)
  else
    let s1 : JobFiles := ⟨true, false, false⟩
    if !o.extractOk then (finallyCleanup false s1, .clientError)
    else if !o.browserOk then (finallyCleanup false (catchCleanup s1), .serverError)
    else
      match o.synth with
      | .failBeforeCreate => (finallyCleanup false (catchCleanup s1), .serverError)
      | .failAfterCreate =>
        (finallyCleanup false (catchCleanup { s1 with tempProject := true }), .serverError)
      | .success =>
        let s2 : JobFiles := { s1 with tempProject := true }
        if !o.bundleOk then (finallyCleanup true (catchCleanup s2), .serverError)
        else if !o.selectOk then (finallyCleanup true (catchCleanup s2), .serverError)
        else if !o.renderOk then (finallyCleanup true (catchCleanup s2), .serverError)
        else
          let s3 : JobFiles := { s2 with outputFile := true }
          let s4 : JobFiles := { s3 with tsxFile := false }
          (finallyCleanup true s4, .delivered)

/-- Whether the run created the temporary project root directory on
disk (the first `mkdirSync` executed): all stages before
`createTempProject` succeeded and synthesis did not fail before the
`mkdirSync`. -/
def tempDirWasCreated (o : StageOutcomes) : Bool :=
  o.tsxValid && o.extractOk && o.browserOk &&
    (match o.synth with
     | .failBeforeCreate => false
     | _ => true)

/-! ### The stale-file reaper (api-server.js lines 48–66) -/

/-- One file of a storage area as the sweep sees it: its age (now minus
mtime, in milliseconds) and whether its `stat` / `unlink` calls throw. -/
structure SweepFile where
  age : Nat
  statFails : Bool
  unlinkFails : Bool
deriving DecidableEq

/-- The one-hour retention threshold in milliseconds. -/
def oneHourMs : Nat := 60 * 60 * 1000

/-- Whether a file is stale: `now - stats.mtimeMs > ONE_HOUR`
(api-server.js line 58, strict). -/
def isStale (f : SweepFile) : Bool := decide (oneHourMs < f.age)

/-- The per-directory sweep (api-server.js lines 53–64), returning the
files that remain.  The try/catch wraps the whole loop over the
directory listing, so the first throwing `stat` or `unlink` ends the
loop for this directory: the failing file and every file after it
remain. -/
def sweepDir : List SweepFile → List SweepFile
  | [] => []
  | f :: rest =>
    if f.statFails then f :: rest
    else if isStale f then
      if f.unlinkFails then f :: rest
      else sweepDir rest
    else f :: sweepDir rest

/-- Model of `cleanupOldFiles` (api-server.js lines 48–66): the temp and output
areas are swept one after the other, each under its own try/catch. -/
def cleanupOldFiles (tempFiles outFiles : List SweepFile) : List SweepFile × List SweepFile :=
  (sweepDir tempFiles, sweepDir outFiles)

/-! ### Output path and content disposition (api-server.js 99–102, 187–192) -/

/-- Model of the outputs directory `path.join(__dirname, "outputs")`. -/
def outputDir : String := "/srv/renderer/outputs"

/-- Model of `const outputFileName = filename || jobId + ".mp4"` (api-server.js
line 101): the client string is used verbatim when truthy; an absent or
empty string falls back to the job id. -/
def outputFileNameOf (jobId : String) (filename : Option String) : String :=
  match filename with
  | some s => if s = "" then jobId ++ ".mp4" else s
  | none => jobId ++ ".mp4"

/-- Model of `const outputPath = path.join(OUTPUT_DIR, outputFileName)`
(api-server.js line 102). -/
def outputPathOf (jobId : String) (filename : Option String) : String :=
  pathJoin outputDir (outputFileNameOf jobId filename)

/-- The `Content-Disposition` response header value (api-server.js line
191). -/
def contentDispositionOf (jobId : String) (filename : Option String) : String :=
  "attachment; filename=\x22" ++ outputFileNameOf jobId filename ++ "\x22"

/-! ### Claim-side descriptions and concrete inputs -/

/-- Claim-side description of a string field of the regex-fallback
path: the first quoted match, else the first numeric match, else the
default (both capture classes are non-empty, so a capture is never
falsy here). -/
def fallbackFieldStr (lit key : List Char) (d : String) : String :=
  match firstQuotedCapture key lit with
  | some b => String.mk b
  | none =>
    match firstNumericCapture key lit with
    | some b => String.mk b
    | none => d

/-- Claim-side description of a numeric field of the regex-fallback
path: the first quoted match, else the first numeric match, with the
capture parsed and a NaN or zero parse replaced by the default, and the
default when nothing matches. -/
def fallbackFieldNum (lit key : List Char) (parse : String → Option JSNum) (d : JSNum) : JSNum :=
  match firstQuotedCapture key lit with
  | some b =>
    (match parse (String.mk b) with
     | some q => if q.mant = 0 then d else q
     | none => d)
  | none =>
    match firstNumericCapture key lit with
    | some b =>
      (match parse (String.mk b) with
       | some q => if q.mant = 0 then d else q
       | none => d)
    | none => d

/-- Claim-side description of the whole regex-fallback result. -/
def fallbackDescribed (lit : List Char) (filename : String) : ExtractedConfig :=
  { id := .str (fallbackFieldStr lit (litChars "id") filename)
  , durationInSeconds := .num (fallbackFieldNum lit (litChars "durationInSeconds") jsParseFloat defaultDurationInSeconds)
  , fps := .num (fallbackFieldNum lit (litChars "fps") jsParseInt defaultFps)
  , width := .num (fallbackFieldNum lit (litChars "width") jsParseInt defaultWidth)
  , height := .num (fallbackFieldNum lit (litChars "height") jsParseInt defaultHeight)
  , defaultProps := .obj [] }

/-- A file the sweep handles without error: its `stat` succeeds and,
when it is stale, its `unlink` succeeds. -/
def sweepSafe (g : SweepFile) : Bool :=
  !g.statFails && (!isStale g || !g.unlinkFails)

/-- A file on which the sweep loop throws: `stat` fails, or the file is
stale and `unlink` fails. -/
def sweepAborts (f : SweepFile) : Bool :=
  f.statFails || (isStale f && f.unlinkFails)

/-- The files an error-free sweep leaves behind: exactly the fresh
ones. -/
def keepFresh (l : List SweepFile) : List SweepFile :=
  l.filter (fun g => !isStale g)

/-- A job that fails at config extraction (inner catch, api-server.js
lines 116–123): every other stage would succeed. -/
def c1ExtractFailJob : StageOutcomes := ⟨true, false, true, .success, true, true, true⟩

/-- A job that fails at bundling: the outer catch runs. -/
def c1BundleFailJob : StageOutcomes := ⟨true, true, true, .success, false, true, true⟩

/-- A job in which `createTempProject` throws after its first
`mkdirSync` (e.g. a failing write of one of the generated files). -/
def c2LeakJob : StageOutcomes := ⟨true, true, true, .failAfterCreate, true, true, true⟩

/-- A fully successful job. -/
def c2OkJob : StageOutcomes := ⟨true, true, true, .success, true, true, true⟩

/-- Source text whose captured literal contains the arithmetic
expression `6*5` as the `fps` value. -/
def c3Input : String := "export const compositionConfig = \x7b fps: 6*5 \x7d;"

/-- The captured literal of `c3Input`. -/
def c3Lit : List Char := litChars "\x7b fps: 6*5 \x7d"

/-- Source text whose captured literal sets `id` to the empty string —
present but falsy and not numeric. -/
def c4Input : String := "export const compositionConfig = \x7b id: \x27\x27 \x7d;"

/-- The captured literal of `c4Input`. -/
def c4Lit : List Char := litChars "\x7b id: \x27\x27 \x7d"

/-- Source text whose captured literal is malformed (evaluation throws)
and contains `fps: 0`. -/
def c5Input : String := "export const compositionConfig = \x7b fps: 0, bad: , \x7d;"

/-- The captured literal of `c5Input`. -/
def c5Lit : List Char := litChars "\x7b fps: 0, bad: , \x7d"

/-- A numeric config used in concrete synthesizer runs. -/
def c7ConfigA : NumericConfig := ⟨"a", 5, 30, 1080, 1920, .obj []⟩

/-- A second distinct numeric config. -/
def c7ConfigB : NumericConfig := ⟨"b", 2, 24, 640, 480, .obj []⟩

/-- The 29.97 fps config of the claim's example. -/
def c9Config : NumericConfig := ⟨"demo", 5, 2997 / 100, 640, 480, .obj []⟩

/-- A stale file whose `stat` throws. -/
def c8FailFile : SweepFile := ⟨oneHourMs + 1, true, false⟩

/-- A stale, perfectly healthy file. -/
def c8StaleFile : SweepFile := ⟨oneHourMs + 1, false, false⟩

/-- A second stale healthy file, for the other storage area. -/
def c8OtherStale : SweepFile := ⟨oneHourMs + 2, false, false⟩

/-- A fresh file. -/
def c8FreshFile : SweepFile := ⟨5, false, false⟩

/-! ### Helper lemmas -/

/-- A truthy value is neither `null` nor `undefined`. -/
theorem truthy_not_nullOrUndef (v : JSVal) (h : truthy v = true) :
    isNullOrUndef v = false := by
  cases v <;> simp_all [truthy, isNullOrUndef]

/-- The function `jsOr` against a numeric default never yields `null`/`undefined`. -/
theorem jsOr_num_not_nullOrUndef (v : JSVal) (d : JSNum) :
    isNullOrUndef (jsOr v (.num d)) = false := by
  unfold jsOr
  by_cases h : truthy v = true
  · simp [h, truthy_not_nullOrUndef v h]
  · simp [h, isNullOrUndef]

/-- The loop of `firstComponentName` returns the head of the filtered
match list. -/
theorem firstComponentName_eq_filter_head (l : List String) :
    firstComponentName l = (l.filter (fun n => n != "compositionConfig")).head? := by
  induction l with
  | nil => rfl
  | cons n rest ih =>
    by_cases h : n != "compositionConfig" <;>
      simp [firstComponentName, List.filter_cons, h, ih]

/-- The string-field cascade of the fallback equals its claim-side
description. -/
theorem extractValue_str_described (lit key : List Char) (d : String) :
    (extractValue lit key).getD d = fallbackFieldStr lit key d := by
  unfold extractValue fallbackFieldStr
  cases firstQuotedCapture key lit with
  | some b => rfl
  | none => cases firstNumericCapture key lit with
    | some b => rfl
    | none => rfl

/-- The numeric-field cascade of the fallback equals its claim-side
description. -/
theorem extractValue_num_described (lit key : List Char) (parse : String → Option JSNum) (d : JSNum) :
    orNumDefault ((extractValue lit key).bind parse) d = fallbackFieldNum lit key parse d := by
  unfold extractValue fallbackFieldNum orNumDefault
  cases firstQuotedCapture key lit with
  | some b => rfl
  | none => cases firstNumericCapture key lit with
    | some b => rfl
    | none => rfl

/-- The regex-fallback result equals its claim-side description in
every field. -/
theorem regexFallback_described (lit : List Char) (filename : String) :
    regexFallback lit filename = fallbackDescribed lit filename := by
  unfold regexFallback fallbackDescribed
  rw [extractValue_str_described, extractValue_num_described,
    extractValue_num_described, extractValue_num_described, extractValue_num_described]

/-- An error-free sweep of a directory removes exactly the stale
files. -/
theorem sweepDir_all_safe (l : List SweepFile) (h : ∀ g ∈ l, sweepSafe g = true) :
    sweepDir l = keepFresh l := by
  induction l with
  | nil => rfl
  | cons g t ih =>
    have hg := h g (List.mem_cons_self g t)
    have ht := fun x hx => h x (List.mem_cons_of_mem g hx)
    unfold sweepSafe at hg
    have hstat : g.statFails = false := by
      cases hs : g.statFails <;> simp_all
    by_cases hstale : isStale g = true
    · have hunl : g.unlinkFails = false := by
        cases hu : g.unlinkFails <;> simp_all
      simp [sweepDir, keepFresh, hstat, hstale, hunl, ih ht]
    · have hstale2 : isStale g = false := Bool.not_eq_true _ ▸ (by simpa using hstale)
      simp [sweepDir, keepFresh, hstat, hstale2, ih ht]

/-- A throwing file ends the sweep of its directory: the error-free
files before it are swept normally, it and everything after it
remain. -/
theorem sweepDir_abort (pre rest : List SweepFile) (f : SweepFile)
    (hpre : ∀ g ∈ pre, sweepSafe g = true) (hf : sweepAborts f = true) :
    sweepDir (pre ++ f :: rest) = keepFresh pre ++ f :: rest := by
  induction pre with
  | nil =>
    unfold sweepAborts at hf
    simp only [List.nil_append, keepFresh, List.filter_nil]
    by_cases hstat : f.statFails = true
    · simp [sweepDir, hstat]
    · have h2 : isStale f = true ∧ f.unlinkFails = true := by
        cases hs : f.statFails <;> cases hst : isStale f <;> cases hu : f.unlinkFails <;>
          simp_all
      simp [sweepDir, Bool.not_eq_true _ ▸ (by simpa using hstat : ¬f.statFails = true), h2.1, h2.2]
  | cons g t ih =>
    have hg := hpre g (List.mem_cons_self g t)
    have ht := fun x hx => hpre x (List.mem_cons_of_mem g hx)
    unfold sweepSafe at hg
    have hstat : g.statFails = false := by
      cases hs : g.statFails <;> simp_all
    by_cases hstale : isStale g = true
    · have hunl : g.unlinkFails = false := by
        cases hu : g.unlinkFails <;> simp_all
      simp [sweepDir, keepFresh, hstat, hstale, hunl, ih ht]
    · have hstale2 : isStale g = false := Bool.not_eq_true _ ▸ (by simpa using hstale)
      simp [sweepDir, keepFresh, hstat, hstale2, ih ht]

/-! ### Claim C1 — cleanup of the temp source and output file on failure -/

/-- Claim C1 as stated is false: a job that fails at config extraction
takes the inner-catch 400 path (api-server.js lines 116–123), which
returns without deleting the already-written `temp/<jobId>.tsx`; the
outer catch with the deletions never runs.  The failure response is
produced while the job's temp source file still exists. -/
theorem c1_counterexample :
    (runRenderJob c1ExtractFailJob).2 ≠ JobResponse.delivered ∧
    (runRenderJob c1ExtractFailJob).1.tsxFile = true := by decide

/-- Claim C1 amended: for every failed job, the job-scoped output file
does not remain, and the job-scoped temp source file does not remain
either except when the failing stage is config extraction, whose 400
response leaves the temp source file on disk. -/
theorem c1_amended (o : StageOutcomes) (h : (runRenderJob o).2 ≠ JobResponse.delivered) :
    (runRenderJob o).1.outputFile = false ∧
    (¬(o.tsxValid = true ∧ o.extractOk = false) → (runRenderJob o).1.tsxFile = false) := by
  revert h
  obtain ⟨v, e, b, sy, bu, se, re⟩ := o
  cases v <;> cases e <;> cases b <;> cases sy <;> cases bu <;> cases se <;> cases re <;> decide

/-- Witness for `c1_amended`: a job failing at the bundling stage. -/
theorem c1_amended_witness :
    (runRenderJob c1BundleFailJob).2 ≠ JobResponse.delivered ∧
    ((runRenderJob c1BundleFailJob).1.outputFile = false ∧
      (¬(c1BundleFailJob.tsxValid = true ∧ c1BundleFailJob.extractOk = false) →
        (runRenderJob c1BundleFailJob).1.tsxFile = false)) :=
  ⟨by decide, c1_amended c1BundleFailJob (by decide)⟩

/-! ### Claim C2 — removal of the temp project directory on every exit path -/

/-- Claim C2 as stated is false: when `createTempProject` throws after
its first `mkdirSync` (temp-project.js line 19), the directory exists
on disk but the caller's `tempProjectDir` variable was never assigned
(api-server.js line 130), so the finally block's null guard (line 211)
skips the cleanup and the directory remains after the job completes. -/
theorem c2_counterexample :
    tempDirWasCreated c2LeakJob = true ∧
    (runRenderJob c2LeakJob).1.tempProject = true ∧
    (runRenderJob c2LeakJob).2 ≠ JobResponse.delivered := by decide

/-- Claim C2 amended: for every job in which the temporary-project
synthesis ran to completion (so the orchestrator holds the directory
path), the directory no longer exists after the job completes, on every
exit path. -/
theorem c2_amended (o : StageOutcomes) (h : o.synth = SynthOutcome.success) :
    (runRenderJob o).1.tempProject = false := by
  revert h
  obtain ⟨v, e, b, sy, bu, se, re⟩ := o
  cases v <;> cases e <;> cases b <;> cases sy <;> cases bu <;> cases se <;> cases re <;> decide

/-- Witness for `c2_amended`: a fully successful job. -/
theorem c2_amended_witness :
    c2OkJob.synth = SynthOutcome.success ∧
    (runRenderJob c2OkJob).1.tempProject = false :=
  ⟨by decide, c2_amended c2OkJob (by decide)⟩

/-! ### Claim C8 — per-file failures and the sweep of the remaining files -/

/-- Claim C8 as stated is false: the try/catch of `cleanupOldFiles`
(api-server.js lines 53–64) wraps the whole per-directory loop, so one
failing `stat` aborts the sweep of every later file in that directory —
here a stale, healthy file right after the failing one survives the
sweep. -/
theorem c8_counterexample :
    sweepDir [c8FailFile, c8StaleFile] = [c8FailFile, c8StaleFile] ∧
    isStale c8StaleFile = true ∧
    c8StaleFile.statFails = false ∧ c8StaleFile.unlinkFails = false := by decide

/-- Claim C8 amended: a failing `stat` or `unlink` aborts the sweep of
the remaining files of its own storage area only — files before the
failing one are swept normally, the failing file and every later file
of that area remain — while the other storage area is still fully
swept (its stale files deleted, its fresh files kept); the failure is
only logged, never escalated. -/
theorem c8_amended (pre rest other : List SweepFile) (f : SweepFile)
    (hpre : ∀ g ∈ pre, sweepSafe g = true) (hf : sweepAborts f = true)
    (hoth : ∀ g ∈ other, sweepSafe g = true) :
    cleanupOldFiles (pre ++ f :: rest) other =
      (keepFresh pre ++ f :: rest, keepFresh other) := by
  unfold cleanupOldFiles
  rw [sweepDir_abort pre rest f hpre hf, sweepDir_all_safe other hoth]

/-- Witness for `c8_amended`: a fresh and a stale file before the
failing file, a stale file after it, and a stale file in the other
area. -/
theorem c8_amended_witness :
    (∀ g ∈ [c8FreshFile, c8StaleFile], sweepSafe g = true) ∧
    sweepAborts c8FailFile = true ∧
    (∀ g ∈ [c8OtherStale], sweepSafe g = true) ∧
    cleanupOldFiles ([c8FreshFile, c8StaleFile] ++ c8FailFile :: [c8StaleFile]) [c8OtherStale] =
      (keepFresh [c8FreshFile, c8StaleFile] ++ c8FailFile :: [c8StaleFile], keepFresh [c8OtherStale]) :=
  ⟨by decide, by decide, by decide,
    c8_amended [c8FreshFile, c8StaleFile] [c8StaleFile] [c8OtherStale] c8FailFile
      (by decide) (by decide) (by decide)⟩

/-! ### Digit-string injectivity (for the temp-directory name) -/

/-- The function `Nat.digitChar` is injective below 10. -/
theorem digitChar_inj_lt : ∀ a < 10, ∀ b < 10, Nat.digitChar a = Nat.digitChar b → a = b := by
  decide

/-- Mapping `Nat.digitChar` over digit lists (all entries below 10) is
injective. -/
theorem map_digitChar_inj (l1 l2 : List Nat) (h1 : ∀ x ∈ l1, x < 10) (h2 : ∀ x ∈ l2, x < 10)
    (h : l1.map Nat.digitChar = l2.map Nat.digitChar) : l1 = l2 := by
  induction l1 generalizing l2 with
  | nil => cases l2 with
    | nil => rfl
    | cons b t2 => simp at h
  | cons a t ih =>
    cases l2 with
    | nil => simp at h
    | cons b t2 =>
      simp only [List.map_cons, List.cons.injEq] at h
      have ha := h1 a (List.mem_cons_self a t)
      have hb := h2 b (List.mem_cons_self b t2)
      have hab := digitChar_inj_lt a ha b hb h.1
      subst hab
      have ht := ih t2 (fun x hx => h1 x (List.mem_cons_of_mem a hx))
        (fun x hx => h2 x (List.mem_cons_of_mem a hx)) h.2
      rw [ht]

/-- Every entry of a base-10 digit list is below 10. -/
theorem digits_mem_lt (n : Nat) : ∀ x ∈ (Nat.digits 10 n).reverse, x < 10 := by
  intro x hx
  exact Nat.digits_lt_base (by norm_num) (List.mem_reverse.mp hx)

/-- The decimal representation is injective: distinct timestamps give
distinct interpolated strings. -/
theorem decRepr_inj (m n : Nat) (h : decRepr m = decRepr n) : m = n := by
  unfold decRepr at h
  by_cases hm : m = 0 <;> by_cases hn : n = 0
  · rw [hm, hn]
  · exfalso
    rw [if_pos hm, if_neg hn] at h
    have hd := congrArg String.data h
    have h2 : (Nat.digits 10 n).reverse = [0] := by
      apply map_digitChar_inj _ _ (digits_mem_lt n) (by simp)
      exact hd.symm
    have h3 : Nat.digits 10 n = [0] := by
      have := congrArg List.reverse h2
      simpa using this
    have h4 := Nat.ofDigits_digits 10 n
    rw [h3] at h4
    simp [Nat.ofDigits] at h4
    exact hn h4.symm
  · exfalso
    rw [if_neg hm, if_pos hn] at h
    have hd := congrArg String.data h
    have h2 : (Nat.digits 10 m).reverse = [0] := by
      apply map_digitChar_inj _ _ (digits_mem_lt m) (by simp)
      exact hd
    have h3 : Nat.digits 10 m = [0] := by
      have := congrArg List.reverse h2
      simpa using this
    have h4 := Nat.ofDigits_digits 10 m
    rw [h3] at h4
    simp [Nat.ofDigits] at h4
    exact hm h4.symm
  · rw [if_neg hm, if_neg hn] at h
    have hd := congrArg String.data h
    have h2 := map_digitChar_inj _ _ (digits_mem_lt m) (digits_mem_lt n) hd
    have h3 : Nat.digits 10 m = Nat.digits 10 n := by
      have := congrArg List.reverse h2
      simpa using this
    exact Nat.digits.injective 10 h3

/-! ### Claim C3 — the structural evaluation executes the input -/

/-- Claim C3 is false of the code: the direct structural evaluation is
`eval` (config-extractor.js line 46) and executes the captured literal
as a JavaScript expression — on `{ fps: 6*5 }` it computes `6*5` and
yields `fps = 30` — whereas the safe structured-literal parser the
specification prescribes accepts no expression, so the specified
extractor falls back to regex extraction and yields `fps = 6` on the
same input. -/
theorem c3_eval_executes_input :
    evalLiteral (cleanLiteral c3Lit) = some (JSVal.obj [("fps", JSVal.num ⟨30, 0⟩)]) ∧
    safeStructuralLiteral (cleanLiteral c3Lit) = none ∧
    extractCompositionConfig c3Input "video" =
      .ok ⟨.str "video", .num ⟨5, 0⟩, .num ⟨30, 0⟩, .num ⟨1080, 0⟩, .num ⟨1920, 0⟩, .obj []⟩ ∧
    extractCompositionConfigSafe c3Input "video" =
      .ok ⟨.str "video", .num ⟨5, 0⟩, .num ⟨6, 0⟩, .num ⟨1080, 0⟩, .num ⟨1920, 0⟩, .obj []⟩ :=
  ⟨by rfl, by rfl, by rfl, by rfl⟩

/-! ### Claim C4 — backfill of the successful-evaluation path -/

/-- Claim C4 as stated is false: the backfill treats every falsy
present value as absent, not only numeric ones.  The literal
`{ id: '' }` evaluates successfully with `id` present as the empty
string, yet the extractor returns the file base name. -/
theorem c4_counterexample :
    findCapture c4Input.data = some c4Lit ∧
    evalLiteral (cleanLiteral c4Lit) = some (JSVal.obj [("id", JSVal.str "")]) ∧
    extractCompositionConfig c4Input "video" =
      .ok ⟨.str "video", .num ⟨5, 0⟩, .num ⟨30, 0⟩, .num ⟨1080, 0⟩, .num ⟨1920, 0⟩, .obj []⟩ ∧
    ("video" : String) ≠ "" :=
  ⟨rfl, rfl, rfl, by decide⟩

/-- Claim C4 amended: on a successfully evaluated literal, every field
with a truthy value is taken verbatim and every other field — absent
or present with a falsy value of any type (`0`, `""`, `false`, `null`,
`undefined`) — is backfilled with its documented default; in
particular an explicit `fps: 0` yields 30, and no numeric field of the
result is ever `null` or `undefined`. -/
theorem c4_amended (v : JSVal) (filename : String) :
    (objGet v "fps" = JSVal.num ⟨0, 0⟩ → (backfill filename v).fps = JSVal.num defaultFps) ∧
    (truthy (objGet v "id") = true → (backfill filename v).id = objGet v "id") ∧
    (truthy (objGet v "id") = false → (backfill filename v).id = JSVal.str filename) ∧
    (truthy (objGet v "durationInSeconds") = true →
      (backfill filename v).durationInSeconds = objGet v "durationInSeconds") ∧
    (truthy (objGet v "durationInSeconds") = false →
      (backfill filename v).durationInSeconds = JSVal.num defaultDurationInSeconds) ∧
    (truthy (objGet v "fps") = true → (backfill filename v).fps = objGet v "fps") ∧
    (truthy (objGet v "fps") = false → (backfill filename v).fps = JSVal.num defaultFps) ∧
    (truthy (objGet v "width") = true → (backfill filename v).width = objGet v "width") ∧
    (truthy (objGet v "width") = false → (backfill filename v).width = JSVal.num defaultWidth) ∧
    (truthy (objGet v "height") = true → (backfill filename v).height = objGet v "height") ∧
    (truthy (objGet v "height") = false → (backfill filename v).height = JSVal.num defaultHeight) ∧
    (truthy (objGet v "defaultProps") = true →
      (backfill filename v).defaultProps = objGet v "defaultProps") ∧
    (truthy (objGet v "defaultProps") = false →
      (backfill filename v).defaultProps = JSVal.obj []) ∧
    isNullOrUndef (backfill filename v).durationInSeconds = false ∧
    isNullOrUndef (backfill filename v).fps = false ∧
    isNullOrUndef (backfill filename v).width = false ∧
    isNullOrUndef (backfill filename v).height = false := by
  refine ⟨?_, ?_, ?_, ?_, ?_, ?_, ?_, ?_, ?_, ?_, ?_, ?_, ?_, ?_, ?_, ?_, ?_⟩ <;>
    first
      | (intro h; simp [backfill, jsOr, h]; done)
      | (intro h; simp [backfill, jsOr, h, truthy]; done)
      | exact jsOr_num_not_nullOrUndef _ _

/-- Witness for `c4_amended`: a literal with an explicit `fps: 0`
yields the default 30. -/
theorem c4_amended_witness :
    objGet (JSVal.obj [("fps", JSVal.num ⟨0, 0⟩)]) "fps" = JSVal.num ⟨0, 0⟩ ∧
    (backfill "video" (JSVal.obj [("fps", JSVal.num ⟨0, 0⟩)])).fps = JSVal.num defaultFps :=
  ⟨rfl, (c4_amended (JSVal.obj [("fps", JSVal.num ⟨0, 0⟩)]) "video").1 rfl⟩

/-! ### Claim C5 — the regex-fallback path -/

/-- Claim C5 as stated is false: on a malformed literal containing
`fps: 0` the evaluation throws, the fallback's first numeric match for
`fps` is the capture `"0"`, yet the extractor returns 30 — the parsed
capture goes through `parseInt(...) || 30` (config-extractor.js line
62), so a falsy parsed value is replaced by the default instead of
being returned as the first match. -/
theorem c5_counterexample :
    findCapture c5Input.data = some c5Lit ∧
    evalLiteral (cleanLiteral c5Lit) = none ∧
    firstNumericCapture (litChars "fps") c5Lit = some (litChars "0") ∧
    extractCompositionConfig c5Input "video" =
      .ok ⟨.str "video", .num ⟨5, 0⟩, .num ⟨30, 0⟩, .num ⟨1080, 0⟩, .num ⟨1920, 0⟩, .obj []⟩ ∧
    JSVal.num ⟨30, 0⟩ ≠ JSVal.num ⟨0, 0⟩ :=
  ⟨rfl, rfl, rfl, rfl, by simp⟩

/-- Claim C5 amended: when the captured literal's structural evaluation
throws, extraction does not raise but returns the per-field fallback:
for `id` the first quoted match, else the first numeric match, else the
file base name; for each numeric field the first quoted match, else the
first numeric match, the capture parsed with `parseFloat`
(`durationInSeconds`) or `parseInt` (others) and a NaN or zero parse
replaced by the field's default, else the default; `defaultProps` is
`{}`. -/
theorem c5_amended (content filename : String) (lit : List Char)
    (hcap : findCapture content.data = some lit)
    (heval : evalLiteral (cleanLiteral lit) = none) :
    extractCompositionConfig content filename = .ok (fallbackDescribed lit filename) := by
  simp only [extractCompositionConfig, hcap, heval, regexFallback_described]

/-- Witness for `c5_amended` at the malformed `fps: 0` literal. -/
theorem c5_amended_witness :
    findCapture c5Input.data = some c5Lit ∧
    evalLiteral (cleanLiteral c5Lit) = none ∧
    extractCompositionConfig c5Input "video" = .ok (fallbackDescribed c5Lit "video") :=
  ⟨rfl, rfl, c5_amended c5Input "video" c5Lit rfl rfl⟩

/-! ### Claim C6 — export-style detection order -/

/-- Claim C6: a default-export marker anywhere wins (even when
capitalized named exports exist); otherwise the first named export of a
capitalized const/function identifier in source order whose name is not
the reserved `compositionConfig`; otherwise a named style carrying the
file base name. -/
theorem c6_export_detection (content filename : String) :
    detectExportStyle content filename =
      (if hasDefaultExport content.data then ExportStyle.defaultExport
       else
         match ((allNamedExports (content.data.length + 1) content.data).filter
             (fun n => n != "compositionConfig")).head? with
         | some n => ExportStyle.namedExport n
         | none => ExportStyle.namedExport filename) := by
  unfold detectExportStyle
  rw [firstComponentName_eq_filter_head]

/-! ### Claim C7 — distinctness of temp project directories -/

/-- Claim C7 as stated is false: the directory name is derived from the
millisecond clock alone (temp-project.js line 18), so two distinct
concurrent jobs whose synthesis starts in the same millisecond receive
the same directory. -/
theorem c7_counterexample :
    (createTempProjectFiles 1000 "/srv/temp/a.tsx" "export default A" c7ConfigA).tempDir =
      (createTempProjectFiles 1000 "/srv/temp/b.tsx" "export default B" c7ConfigB).tempDir ∧
    ("/srv/temp/a.tsx" : String) ≠ "/srv/temp/b.tsx" :=
  ⟨rfl, by decide⟩

/-- Claim C7 amended: two jobs whose synthesis calls observe distinct
millisecond timestamps receive distinct temporary project directories
(the name determines the timestamp). -/
theorem c7_amended (n1 n2 : Nat) (p1 t1 p2 t2 : String) (c1 c2 : NumericConfig)
    (h : n1 ≠ n2) :
    (createTempProjectFiles n1 p1 t1 c1).tempDir ≠
      (createTempProjectFiles n2 p2 t2 c2).tempDir := by
  intro he
  apply h
  have h1 : tempProjectDirName n1 = tempProjectDirName n2 := he
  unfold tempProjectDirName pathJoin at h1
  have h2 := congrArg String.data h1
  simp only [String.data_append] at h2
  have h3 := List.append_cancel_left h2
  have h4 := List.append_cancel_left h3
  exact decRepr_inj _ _ (String.ext h4)

/-- Witness for `c7_amended`: timestamps one millisecond apart. -/
theorem c7_amended_witness :
    (1000 : Nat) ≠ 1001 ∧
    (createTempProjectFiles 1000 "/srv/temp/a.tsx" "export default A" c7ConfigA).tempDir ≠
      (createTempProjectFiles 1001 "/srv/temp/a.tsx" "export default A" c7ConfigA).tempDir :=
  ⟨by decide,
    c7_amended 1000 1001 "/srv/temp/a.tsx" "export default A" "/srv/temp/a.tsx"
      "export default A" c7ConfigA c7ConfigA (by decide)⟩

/-! ### Claim C9 — duration in frames -/

/-- Claim C9: for positive duration and fps, the `durationInFrames`
value computed by the synthesizer (written into the generated
`Root.tsx`) and the one passed to `renderMedia` both equal the product
rounded to the nearest integer (`Math.round`, half-up, coincides with
mathematical rounding `round` on the model's rationals). -/
theorem c9_duration_round (c : NumericConfig) (now : Nat) (p t : String)
    (hd : 0 < c.durationInSeconds) (hf : 0 < c.fps) :
    (createTempProjectFiles now p t c).durationInFrames =
      round (c.durationInSeconds * c.fps) ∧
    (createTempProjectFiles now p t c).rootTsx =
      rootTsxTemplate c (importStatementFor p (detectExportStyle t (baseNameNoTsx p)))
        (round (c.durationInSeconds * c.fps)) ∧
    renderMediaDurationInFrames c = round (c.durationInSeconds * c.fps) := by
  have h : jsMathRound (c.durationInSeconds * c.fps) = round (c.durationInSeconds * c.fps) :=
    (round_eq _).symm
  exact ⟨h, by rw [← h]; rfl, h⟩

/-- Witness for `c9_duration_round`: 5.0 s at 29.97 fps gives 150
frames. -/
theorem c9_witness :
    (0 : ℚ) < c9Config.durationInSeconds ∧ (0 : ℚ) < c9Config.fps ∧
    ((createTempProjectFiles 7 "/srv/temp/j.tsx" "export default X" c9Config).durationInFrames =
        round (c9Config.durationInSeconds * c9Config.fps) ∧
      (createTempProjectFiles 7 "/srv/temp/j.tsx" "export default X" c9Config).rootTsx =
        rootTsxTemplate c9Config
          (importStatementFor "/srv/temp/j.tsx"
            (detectExportStyle "export default X" (baseNameNoTsx "/srv/temp/j.tsx")))
          (round (c9Config.durationInSeconds * c9Config.fps)) ∧
      renderMediaDurationInFrames c9Config =
        round (c9Config.durationInSeconds * c9Config.fps)) ∧
    round (c9Config.durationInSeconds * c9Config.fps) = 150 :=
  ⟨by norm_num [c9Config], by norm_num [c9Config],
    c9_duration_round c9Config 7 "/srv/temp/j.tsx" "export default X"
      (by norm_num [c9Config]) (by norm_num [c9Config]),
    by rw [round_eq]; norm_num [c9Config]⟩

/-! ### Claim C10 — output path and content disposition -/

/-- Claim C10: the on-disk output path joins the outputs directory with
the client filename taken verbatim whenever one is given (a supplied
empty string is falsy under `||` and counts as not given), otherwise
`jobId.mp4`; the same string is echoed in the Content-Disposition
header; nothing constrains the supplied name's extension or path
components — the equations hold for every non-empty string. -/
theorem c10_output_path (jobId s : String) (hs : s ≠ "") :
    outputFileNameOf jobId (some s) = s ∧
    outputPathOf jobId (some s) = pathJoin outputDir s ∧
    contentDispositionOf jobId (some s) = "attachment; filename=\x22" ++ s ++ "\x22" ∧
    outputFileNameOf jobId none = jobId ++ ".mp4" ∧
    outputPathOf jobId none = pathJoin outputDir (jobId ++ ".mp4") ∧
    contentDispositionOf jobId none = "attachment; filename=\x22" ++ (jobId ++ ".mp4") ++ "\x22" := by
  simp [outputFileNameOf, outputPathOf, contentDispositionOf, hs]

/-- Witness for `c10_output_path`: a name with a traversal component
and a non-mp4 extension passes through verbatim. -/
theorem c10_output_path_witness :
    ("../evil.txt" : String) ≠ "" ∧
    (outputFileNameOf "job-1" (some "../evil.txt") = "../evil.txt" ∧
      outputPathOf "job-1" (some "../evil.txt") = pathJoin outputDir "../evil.txt" ∧
      contentDispositionOf "job-1" (some "../evil.txt") =
        "attachment; filename=\x22" ++ "../evil.txt" ++ "\x22" ∧
      outputFileNameOf "job-1" none = "job-1" ++ ".mp4" ∧
      outputPathOf "job-1" none = pathJoin outputDir ("job-1" ++ ".mp4") ∧
      contentDispositionOf "job-1" none =
        "attachment; filename=\x22" ++ ("job-1" ++ ".mp4") ++ "\x22") :=
  ⟨by decide, c10_output_path "job-1" "../evil.txt" (by decide)⟩

end CodeToVideo
